import Mathlib

/-!
Shallow embedding of the task-manager frontend (Next.js client):
the REST task client (`frontend/lib/api.ts`), the auth/chat client
(`frontend/lib/better-auth.ts`), the session store
(`frontend/lib/auth-context.tsx`), the task-list view-model
(`frontend/pages/index.tsx`) and the chat view-model
(`components/Chat.tsx`).

Network calls are modelled by passing the eventual resolution of the
underlying promise (`Except String`-valued outcomes) explicitly;
`localStorage` is modelled as a record of the two keys the app uses
(`jwt_token` and `user`).  The JSON text stored under the `user` key is
modelled by `StoredJson`: either text that `JSON.parse` decodes to a flat
object of string fields, or text on which `JSON.parse` throws.
-/

namespace Todo

/-- Task record (`frontend/types/task.ts`). -/
structure Task where
  id : Nat
  title : String
  description : String
  completed : Bool
deriving DecidableEq, Repr

/-- The serialized text stored under the `user` localStorage key:
either text that `JSON.parse` decodes to an object with the given string
fields, or text on which `JSON.parse` throws. -/
inductive StoredJson where
  | jsonOf (fields : List (String × String))
  | invalid
deriving DecidableEq, Repr

/-- The two durable localStorage keys the app uses:
`jwt_token` (bearer token) and `user` (serialized user object). -/
structure Storage where
  jwtToken : Option String
  userRaw : Option StoredJson
deriving DecidableEq, Repr

/-- JavaScript truthiness of `localStorage.getItem(...)`:
`null` and the empty string are falsy. -/
def strTruthy : Option String → Bool
  | none => false
  | some s => s != ""

/-- `Response.ok` of the fetch API: status in the range 200-299. -/
def responseOk (status : Nat) : Bool :=
  200 ≤ status && status < 300

/-- An HTTP response as observed by the client wrappers. -/
structure HttpResponse where
  status : Nat
  statusText : String
deriving DecidableEq, Repr

/-- The two error classes thrown by `apiRequest` / `authFetch`
(the spec calls them `AuthExpiredError` and `ApiError`). -/
inductive ReqError where
  | authExpired
  | apiErr (statusText : String)
deriving DecidableEq, Repr

/-- The `Error.message` text of each throw site. -/
def ReqError.message : ReqError → String
  | .authExpired => "Authentication expired. Please login again."
  | .apiErr st => "API Error: " ++ st

/-- `localStorage.removeItem("jwt_token"); localStorage.removeItem("user")`. -/
def removeSession (st : Storage) : Storage :=
  { st with jwtToken := none, userRaw := none }

/-- Headers built by `apiRequest` (`frontend/lib/api.ts`): `Content-Type`
always; `Authorization: Bearer <token>` when the stored token is truthy. -/
def apiRequestHeaders (st : Storage) : List (String × String) :=
  let base := [("Content-Type", "application/json")]
  match st.jwtToken with
  | some t => if t != "" then base ++ [("Authorization", "Bearer " ++ t)] else base
  | none => base

/-- Response handling of `apiRequest` (`frontend/lib/api.ts`): on a 2xx
response the parsed body is returned; on 401 both storage keys are removed
and `AuthExpiredError` is thrown; on any other non-2xx, `ApiError` with the
status text is thrown.  Returns the updated storage with the outcome. -/
def apiRequest (st : Storage) (resp : HttpResponse) : Storage × Except ReqError Unit :=
  if responseOk resp.status then (st, .ok ())
  else if resp.status = 401 then (removeSession st, .error .authExpired)
  else (st, .error (.apiErr resp.statusText))

/-- An outbound HTTP request as built by the task client. -/
structure HttpRequest where
  method : String
  path : String
  headers : List (String × String)
deriving DecidableEq, Repr

/-- `taskApi.getTasks` (`frontend/lib/api.ts`): GET /tasks with the
headers produced by `apiRequest`. -/
def taskApi.getTasks (st : Storage) : HttpRequest :=
  { method := "GET", path := "/tasks", headers := apiRequestHeaders st }

/-- `AuthUser` (`frontend/lib/better-auth.ts`). -/
structure AuthUser where
  id : String
  email : String
deriving DecidableEq, Repr

/-- `AuthResponse` (`frontend/lib/better-auth.ts`). -/
structure AuthResponse where
  token : String
  user : AuthUser
deriving DecidableEq, Repr

/-- The object fields of `response.user` as serialized by `JSON.stringify`. -/
def AuthUser.fields (u : AuthUser) : List (String × String) :=
  [("id", u.id), ("email", u.email)]

/-- State of `AuthProvider` (`frontend/lib/auth-context.tsx`): `token`,
`user` (the parsed user object, a flat object of string fields) and
`isInitialized`. -/
structure AuthState where
  token : Option String
  user : Option (List (String × String))
  isInitialized : Bool
deriving DecidableEq, Repr

/-- The `useState` defaults of `AuthProvider`: no token, no user,
not yet initialized. -/
def authDefault : AuthState :=
  { token := none, user := none, isInitialized := false }

/-- `isAuthenticated: !!token` (`frontend/lib/auth-context.tsx`). -/
def isAuthenticated (s : AuthState) : Bool :=
  strTruthy s.token

/-- The sync effect of `AuthProvider` (auth-context.tsx, second
`useEffect`): returns unchanged storage before initialization; afterwards
persists the token (and the serialized user if present) when the token is
truthy, else removes both keys. -/
def syncEffect (s : AuthState) (st : Storage) : Storage :=
  if !s.isInitialized then st
  else
    match s.token with
    | some t =>
        if t != "" then
          let st1 := { st with jwtToken := some t }
          match s.user with
          | some fs => { st1 with userRaw := some (.jsonOf fs) }
          | none => st1
        else { st with jwtToken := none, userRaw := none }
    | none => { st with jwtToken := none, userRaw := none }

/-- The initial-load effect of `AuthProvider` (auth-context.tsx, first
`useEffect`): reads both keys, adopting the stored token when truthy and
the stored user when it parses, then marks the store initialized. -/
def initialLoadEffect (s : AuthState) (st : Storage) : AuthState :=
  let s1 :=
    match st.jwtToken with
    | some t => if t != "" then { s with token := some t } else s
    | none => s
  let s2 :=
    match st.userRaw with
    | some (.jsonOf fs) => { s1 with user := some fs }
    | some .invalid => s1
    | none => s1
  { s2 with isInitialized := true }

/-- `setToken(response.token); setUser(response.user)` after a successful
`login` / `signup`. -/
def setSession (r : AuthResponse) (s : AuthState) : AuthState :=
  { s with token := some r.token, user := some r.user.fields }

/-- Events driving the session store. -/
inductive AuthEvent where
  | initialLoad
  | loginOk (resp : AuthResponse)
  | signupOk (resp : AuthResponse)
  | logoutEv
deriving DecidableEq, Repr

/-- One step of the session store: the state update of the event followed
by the sync effect (which re-runs whenever token/user/isInitialized
change). -/
def stepAuth : AuthState × Storage → AuthEvent → AuthState × Storage
  | (s, st), .initialLoad =>
      let s2 := initialLoadEffect s st
      (s2, syncEffect s2 st)
  | (s, st), .loginOk r =>
      let s2 := setSession r s
      (s2, syncEffect s2 st)
  | (s, st), .signupOk r =>
      let s2 := setSession r s
      (s2, syncEffect s2 st)
  | (s, st), .logoutEv =>
      let s2 := { s with token := none, user := none }
      (s2, syncEffect s2 st)

/-- `logout()` (`frontend/lib/auth-context.tsx`): clears token and user;
the sync effect then updates storage. -/
def logout (s : AuthState) (st : Storage) : AuthState × Storage :=
  stepAuth (s, st) .logoutEv

/-- A successful `login(email, password)` resolving to `r`. -/
def loginSuccess (r : AuthResponse) (s : AuthState) (st : Storage) : AuthState × Storage :=
  stepAuth (s, st) (.loginOk r)

/-- Run the session store from its startup default over a list of events. -/
def runAuth (st0 : Storage) (evs : List AuthEvent) : AuthState × Storage :=
  evs.foldl stepAuth (authDefault, st0)

/-- Message roles (`frontend/lib/better-auth.ts`, `ChatMessage`). -/
inductive Role where
  | user
  | assistant
  | system
deriving DecidableEq, Repr

/-- `ChatMessage` (`frontend/lib/better-auth.ts`). -/
structure ChatMessage where
  role : Role
  content : String
  created_at : Option String
deriving DecidableEq, Repr

/-- `tool_result` payload of a chat response. -/
structure ToolResult where
  success : Bool
  message : String
deriving DecidableEq, Repr

/-- `ChatResponse` (`frontend/lib/better-auth.ts`). -/
structure ChatResponse where
  response : String
  conversation_id : Nat
  intent : String
  tool_result : Option ToolResult
deriving DecidableEq, Repr

/-- `ChatRequest` (`frontend/lib/better-auth.ts`). -/
structure ChatRequest where
  message : String
  conversation_id : Option Nat
deriving DecidableEq, Repr

/-- `Conversation` as used by the chat component. -/
structure Conversation where
  id : Nat
  title : String
  updated_at : String
deriving DecidableEq, Repr

/-- State of the `Chat` component (`components/Chat.tsx`). -/
structure ChatState where
  messages : List ChatMessage
  input : String
  loading : Bool
  conversationId : Option Nat
  conversations : List Conversation
deriving DecidableEq, Repr

/-- JavaScript `String.prototype.trim`: strips leading and trailing
whitespace. -/
def jsTrim (s : String) : String :=
  String.mk (((s.data.dropWhile Char.isWhitespace).reverse.dropWhile Char.isWhitespace).reverse)

/-- JavaScript truthiness of a nullable numeric conversation id
(`null` and `0` are falsy). -/
def convTruthy : Option Nat → Bool
  | none => false
  | some n => n != 0

/-- Result of one `handleSubmit` invocation: the final component state,
the chat request passed to `chatApi.sendMessage` (none when the guard
tripped), and whether `loadConversations()` was re-triggered. -/
structure SubmitResult where
  state : ChatState
  request : Option ChatRequest
  refreshedConversations : Bool
deriving DecidableEq, Repr

/-- `handleSubmit` (`components/Chat.tsx`): guarded no-op when the trimmed
input is empty or a send is in flight; otherwise appends the optimistic
user message, clears the input, sets loading, sends, then on success
appends the assistant reply (adopting a fresh conversation id and
refreshing the conversation list when the previous id was not truthy), and
on failure appends a synthetic assistant message carrying the error text.
`outcome` is the resolution of the `chatApi.sendMessage` promise. -/
def handleSubmit (s : ChatState) (outcome : Except String ChatResponse) : SubmitResult :=
  if jsTrim s.input == "" || s.loading then
    { state := s, request := none, refreshedConversations := false }
  else
    let text := jsTrim s.input
    let userMsg : ChatMessage := { role := .user, content := text, created_at := none }
    let req : ChatRequest :=
      { message := text
        conversation_id := if convTruthy s.conversationId then s.conversationId else none }
    let s1 := { s with messages := s.messages ++ [userMsg], input := "", loading := true }
    match outcome with
    | .ok resp =>
        let adopt := !convTruthy s.conversationId && resp.conversation_id != 0
        let s2 := if adopt then { s1 with conversationId := some resp.conversation_id } else s1
        let s3 :=
          { s2 with
            messages := s2.messages ++ [{ role := .assistant, content := resp.response, created_at := none }]
            loading := false }
        { state := s3, request := some req, refreshedConversations := adopt }
    | .error e =>
        let s3 :=
          { s1 with
            messages := s1.messages ++ [{ role := .assistant, content := e, created_at := none }]
            loading := false }
        { state := s3, request := some req, refreshedConversations := false }

/-- `chatApi.getUserId` (`frontend/lib/better-auth.ts`): reads the `user`
key, returns `parsed.id || null`, and `null` when the key is absent or the
text fails to parse. -/
def chatApi.getUserId (st : Storage) : Option String :=
  match st.userRaw with
  | none => none
  | some .invalid => none
  | some (.jsonOf fs) =>
      match fs.lookup "id" with
      | none => none
      | some s => if s == "" then none else some s

/-- An outbound request built by the chat client (`authFetch`). -/
structure ChatCall where
  method : String
  path : String
  headers : List (String × String)
  body : Option ChatRequest
deriving DecidableEq, Repr

/-- Headers built by `authFetch` (`frontend/lib/better-auth.ts`); same
logic as `apiRequestHeaders`. -/
def authFetchHeaders (st : Storage) : List (String × String) :=
  let base := [("Content-Type", "application/json")]
  match st.jwtToken with
  | some t => if t != "" then base ++ [("Authorization", "Bearer " ++ t)] else base
  | none => base

/-- `chatApi.sendMessage` (`frontend/lib/better-auth.ts`): throws
`"User not authenticated"` before any request is built when no user id is
available; otherwise issues POST /api/userId/chat. -/
def chatApi.sendMessage (st : Storage) (message : String) (conversationId : Option Nat) :
    Except String ChatCall :=
  match chatApi.getUserId st with
  | none => .error "User not authenticated"
  | some uid =>
      .ok
        { method := "POST"
          path := "/api/" ++ uid ++ "/chat"
          headers := authFetchHeaders st
          body := some
            { message := message
              conversation_id := if convTruthy conversationId then conversationId else none } }

/-- `chatApi.getConversations` (`frontend/lib/better-auth.ts`). -/
def chatApi.getConversations (st : Storage) : Except String ChatCall :=
  match chatApi.getUserId st with
  | none => .error "User not authenticated"
  | some uid =>
      .ok
        { method := "GET"
          path := "/api/" ++ uid ++ "/conversations"
          headers := authFetchHeaders st
          body := none }

/-- `chatApi.getConversationMessages` (`frontend/lib/better-auth.ts`). -/
def chatApi.getConversationMessages (st : Storage) (conversationId : Nat) :
    Except String ChatCall :=
  match chatApi.getUserId st with
  | none => .error "User not authenticated"
  | some uid =>
      .ok
        { method := "GET"
          path := "/api/" ++ uid ++ "/conversations/" ++ toString conversationId ++ "/messages"
          headers := authFetchHeaders st
          body := none }

/-- Transient banner of the task page (`frontend/pages/index.tsx`). -/
inductive Banner where
  | success (text : String)
  | error (text : String)
deriving DecidableEq, Repr

/-- `loadTasks` (`frontend/pages/index.tsx`): replaces the collection with
the server list on success; on failure leaves it untouched and surfaces an
error banner. -/
def loadTasks (tasks : List Task) (outcome : Except String (List Task)) :
    List Task × Option Banner :=
  match outcome with
  | .ok data => (data, none)
  | .error e => (tasks, some (.error e))

/-- `handleCreateTask` (`frontend/pages/index.tsx`): prepends the returned
task on success. -/
def handleCreateTask (tasks : List Task) (outcome : Except String Task) :
    List Task × Banner :=
  match outcome with
  | .ok newTask => (newTask :: tasks, .success "Task created successfully")
  | .error e => (tasks, .error e)

/-- `handleDeleteTask` (`frontend/pages/index.tsx`): filters out the id
only after the delete call resolved; on failure the list is untouched. -/
def handleDeleteTask (tasks : List Task) (id : Nat) (outcome : Except String Unit) :
    List Task × Banner :=
  match outcome with
  | .ok _ => (tasks.filter (fun t => t.id != id), .success "Task deleted")
  | .error e => (tasks, .error e)

/-- `handleToggleTask` (`frontend/pages/index.tsx`): replaces the matching
entry by id with the server's returned task. -/
def handleToggleTask (tasks : List Task) (id : Nat) (outcome : Except String Task) :
    List Task × Option Banner :=
  match outcome with
  | .ok updated => (tasks.map (fun t => if t.id = id then updated else t), none)
  | .error e => (tasks, some (.error e))

/-- `handleUpdateTask` (`frontend/pages/index.tsx`): replaces the matching
entry by id with the server's returned task. -/
def handleUpdateTask (tasks : List Task) (id : Nat) (outcome : Except String Task) :
    List Task × Banner :=
  match outcome with
  | .ok updated => (tasks.map (fun t => if t.id = id then updated else t), .success "Task updated")
  | .error e => (tasks, .error e)

/-- The id projection of the task collection. -/
def taskIds (tasks : List Task) : List Nat :=
  tasks.map Task.id

end Todo

namespace Todo

/-- C1: When a send is in flight (`loading` is set), a second
`handleSubmit` invocation is a complete no-op: the transcript and
conversation id are unchanged and no network request is issued. -/
theorem chat_send_single_flight (s : ChatState) (outcome : Except String ChatResponse)
    (h : s.loading = true) :
    handleSubmit s outcome = { state := s, request := none, refreshedConversations := false } := by
  simp [handleSubmit, h]

/-- Witness for `chat_send_single_flight` at a concrete in-flight state. -/
theorem chat_send_single_flight_witness :
    handleSubmit
        { messages := [{ role := .user, content := "hi", created_at := none }]
          input := "again", loading := true, conversationId := some 1, conversations := [] }
        (.ok { response := "r", conversation_id := 1, intent := "chat", tool_result := none }) =
      { state :=
          { messages := [{ role := .user, content := "hi", created_at := none }]
            input := "again", loading := true, conversationId := some 1, conversations := [] }
        request := none, refreshedConversations := false } :=
  chat_send_single_flight _ _ rfl

/-- C3: `sendMessage` with the empty input is a no-op: transcript and
conversation id unchanged, no network request issued. -/
theorem sendMessage_empty_noop (s : ChatState) (outcome : Except String ChatResponse)
    (h : s.input = "") :
    handleSubmit s outcome = { state := s, request := none, refreshedConversations := false } := by
  have ht : (jsTrim "" == "") = true := by decide
  simp [handleSubmit, h, ht]

/-- Witness for `sendMessage_empty_noop` at a concrete state. -/
theorem sendMessage_empty_noop_witness :
    handleSubmit
        { messages := [], input := "", loading := false, conversationId := some 1, conversations := [] }
        (.error "x") =
      { state :=
          { messages := [], input := "", loading := false, conversationId := some 1, conversations := [] }
        request := none, refreshedConversations := false } :=
  sendMessage_empty_noop _ _ rfl

/-- C8: When the chat request rejects, `handleSubmit` appends exactly one
synthetic assistant-role message carrying the error text after the
optimistic user message; the conversation id is unchanged (the component
has no banner-style error state at all). -/
theorem chat_error_as_turn (s : ChatState) (e : String)
    (hload : s.loading = false) (hinput : jsTrim s.input ≠ "") :
    handleSubmit s (.error e) =
      { state :=
          { s with
            messages := s.messages ++
              [{ role := .user, content := jsTrim s.input, created_at := none },
               { role := .assistant, content := e, created_at := none }]
            input := ""
            loading := false }
        request := some
          { message := jsTrim s.input
            conversation_id := if convTruthy s.conversationId then s.conversationId else none }
        refreshedConversations := false } := by
  have hcond : (jsTrim s.input == "" || s.loading) = false := by
    simp [hload, hinput]
  simp [handleSubmit, hcond]

/-- Witness for `chat_error_as_turn` at a concrete failing send. -/
theorem chat_error_as_turn_witness :
    handleSubmit
        { messages := [], input := "hello", loading := false, conversationId := some 5, conversations := [] }
        (.error "boom") =
      { state :=
          { messages :=
              [{ role := .user, content := "hello", created_at := none },
               { role := .assistant, content := "boom", created_at := none }]
            input := "", loading := false, conversationId := some 5, conversations := [] }
        request := some { message := "hello", conversation_id := some 5 }
        refreshedConversations := false } := by
  have h := chat_error_as_turn
    { messages := [], input := "hello", loading := false, conversationId := some 5, conversations := [] }
    "boom" rfl (by decide)
  simpa using h

/-- C2: `apiRequest` on a 401 response removes both persisted session keys
and fails with `AuthExpiredError`; on any other non-2xx it fails with
`ApiError` carrying the status text and leaves storage untouched. -/
theorem apiRequest_status_errors (st : Storage) (resp : HttpResponse) :
    (resp.status = 401 →
      apiRequest st resp = ({ jwtToken := none, userRaw := none }, .error .authExpired))
    ∧ (responseOk resp.status = false → resp.status ≠ 401 →
      apiRequest st resp = (st, .error (.apiErr resp.statusText))) := by
  obtain ⟨tk, ur⟩ := st
  constructor
  · intro h
    have hok : responseOk 401 = false := by decide
    simp [apiRequest, h, hok, removeSession]
  · intro hok hne
    simp [apiRequest, hok, hne]

/-- Witness for `apiRequest_status_errors` at a 401 and a 500 response. -/
theorem apiRequest_status_errors_witness :
    apiRequest ⟨some "t1", some (.jsonOf [("id", "u1")])⟩ ⟨401, "Unauthorized"⟩ =
      ({ jwtToken := none, userRaw := none }, .error .authExpired)
    ∧ apiRequest ⟨some "t1", some (.jsonOf [("id", "u1")])⟩ ⟨500, "Internal Server Error"⟩ =
      (⟨some "t1", some (.jsonOf [("id", "u1")])⟩, .error (.apiErr "Internal Server Error")) :=
  ⟨(apiRequest_status_errors _ _).1 rfl,
   (apiRequest_status_errors _ _).2 (by decide) (by decide)⟩

/-- C4: `handleDeleteTask` leaves the local list untouched when the delete
call rejects, and filters the id out only after the call resolved. -/
theorem deleteTask_only_after_confirmation (tasks : List Task) (id : Nat) (e : String) :
    (handleDeleteTask tasks id (.error e)).1 = tasks
    ∧ (handleDeleteTask tasks id (.ok ())).1 = tasks.filter (fun t => t.id != id) :=
  ⟨rfl, rfl⟩

end Todo

namespace Todo

/-- C5: Every task-list operation preserves the id-uniqueness invariant
(under the spec's guarantee that server-assigned ids are unique: a loaded
list has distinct ids, a created task's id is fresh, toggle/update return
the task with the requested id), error outcomes leave the list untouched,
and the concrete create scenario yields id 42 exactly once. -/
theorem task_ids_unique_after_ops (tasks data : List Task) (t u : Task) (i : Nat) (e : String)
    (hnd : (taskIds tasks).Nodup) :
    ((taskIds data).Nodup → (taskIds (loadTasks tasks (.ok data)).1).Nodup)
    ∧ (t.id ∉ taskIds tasks → (taskIds (handleCreateTask tasks (.ok t)).1).Nodup)
    ∧ (u.id = i → (taskIds (handleToggleTask tasks i (.ok u)).1).Nodup)
    ∧ (u.id = i → (taskIds (handleUpdateTask tasks i (.ok u)).1).Nodup)
    ∧ (taskIds (handleDeleteTask tasks i (.ok ())).1).Nodup
    ∧ (taskIds (loadTasks tasks (.error e)).1).Nodup
    ∧ (taskIds (handleCreateTask tasks (.error e)).1).Nodup
    ∧ (taskIds (handleToggleTask tasks i (.error e)).1).Nodup
    ∧ (taskIds (handleUpdateTask tasks i (.error e)).1).Nodup
    ∧ (taskIds (handleDeleteTask tasks i (.error e)).1).Nodup
    ∧ ((handleCreateTask [⟨7, "Call mom", "", false⟩]
          (.ok ⟨42, "Buy milk", "", false⟩)).1.countP (fun a => a.id == 42)) = 1 := by
  have hrepl : ∀ h : u.id = i,
      taskIds (tasks.map (fun a => if a.id = i then u else a)) = taskIds tasks := by
    intro h
    simp only [taskIds, List.map_map]
    refine List.map_congr_left ?_
    intro a _
    by_cases ha : a.id = i
    · simp [Function.comp, ha, h]
    · simp [Function.comp, ha]
  refine ⟨?_, ?_, ?_, ?_, ?_, hnd, hnd, hnd, hnd, hnd, by decide⟩
  · intro h
    simpa [loadTasks, taskIds] using h
  · intro h
    simp only [handleCreateTask, taskIds, List.map_cons]
    exact List.nodup_cons.mpr ⟨by simpa [taskIds] using h, hnd⟩
  · intro h
    have := hrepl h
    simpa [handleToggleTask] using this ▸ hnd
  · intro h
    have := hrepl h
    simpa [handleUpdateTask] using this ▸ hnd
  · have hsub : List.Sublist (taskIds ((handleDeleteTask tasks i (.ok ())).1)) (taskIds tasks) := by
      simp only [handleDeleteTask, taskIds]
      exact (List.filter_sublist _).map _
    exact hnd.sublist hsub

/-- Witness for `task_ids_unique_after_ops` at concrete lists. -/
theorem task_ids_unique_after_ops_witness :
    (taskIds (loadTasks [⟨1, "a", "", false⟩] (.ok [⟨3, "c", "", false⟩])).1).Nodup
    ∧ (taskIds (handleCreateTask [⟨1, "a", "", false⟩] (.ok ⟨9, "d", "", false⟩)).1).Nodup
    ∧ (taskIds (handleToggleTask [⟨1, "a", "", false⟩] 1 (.ok ⟨1, "a2", "", true⟩)).1).Nodup
    ∧ (taskIds (handleUpdateTask [⟨1, "a", "", false⟩] 1 (.ok ⟨1, "a2", "", true⟩)).1).Nodup
    ∧ (taskIds (handleDeleteTask [⟨1, "a", "", false⟩] 1 (.ok ())).1).Nodup := by
  have h := task_ids_unique_after_ops [⟨1, "a", "", false⟩] [⟨3, "c", "", false⟩]
    ⟨9, "d", "", false⟩ ⟨1, "a2", "", true⟩ 1 "err" (by decide)
  exact ⟨h.1 (by decide), h.2.1 (by decide), h.2.2.1 rfl, h.2.2.2.1 rfl, h.2.2.2.2.1⟩

/-- C6: After `logout()` (in an initialized store, the only state in which
the UI can invoke it), `isAuthenticated` is false, token and user are null,
both persisted storage keys are absent, and a second `logout()` changes
nothing. -/
theorem logout_clears_session (s : AuthState) (st : Storage)
    (hinit : s.isInitialized = true) :
    isAuthenticated (logout s st).1 = false
    ∧ (logout s st).1.token = none
    ∧ (logout s st).1.user = none
    ∧ (logout s st).2.jwtToken = none
    ∧ (logout s st).2.userRaw = none
    ∧ logout (logout s st).1 (logout s st).2 = logout s st := by
  obtain ⟨tk, us, ini⟩ := s
  obtain ⟨stk, sur⟩ := st
  subst hinit
  simp [logout, stepAuth, syncEffect, isAuthenticated, strTruthy]

/-- Witness for `logout_clears_session` at a concrete logged-in session. -/
theorem logout_clears_session_witness :
    isAuthenticated (logout ⟨some "t1", some [("id", "u1")], true⟩
        ⟨some "t1", some (.jsonOf [("id", "u1")])⟩).1 = false
    ∧ (logout ⟨some "t1", some [("id", "u1")], true⟩
        ⟨some "t1", some (.jsonOf [("id", "u1")])⟩).2.jwtToken = none
    ∧ (logout ⟨some "t1", some [("id", "u1")], true⟩
        ⟨some "t1", some (.jsonOf [("id", "u1")])⟩).2.userRaw = none := by
  have h := logout_clears_session ⟨some "t1", some [("id", "u1")], true⟩
    ⟨some "t1", some (.jsonOf [("id", "u1")])⟩ rfl
  exact ⟨h.1, h.2.2.2.1, h.2.2.2.2.1⟩

/-- C7: `apiRequest` attaches `Authorization: Bearer <token>` exactly when
a (truthy) token is stored, and none when no token is stored; after the
concrete login scenario returning token t1, `isAuthenticated` is true and
`taskApi.getTasks` carries `Authorization: Bearer t1`. -/
theorem auth_header_iff_token (st : Storage) :
    (∀ t, st.jwtToken = some t → t ≠ "" →
      apiRequestHeaders st =
        [("Content-Type", "application/json"), ("Authorization", "Bearer " ++ t)])
    ∧ (st.jwtToken = none →
      apiRequestHeaders st = [("Content-Type", "application/json")])
    ∧ isAuthenticated
        (loginSuccess ⟨"t1", ⟨"u1", "a@x.com"⟩⟩ ⟨none, none, true⟩ ⟨none, none⟩).1 = true
    ∧ taskApi.getTasks
        (loginSuccess ⟨"t1", ⟨"u1", "a@x.com"⟩⟩ ⟨none, none, true⟩ ⟨none, none⟩).2 =
      { method := "GET", path := "/tasks"
        headers := [("Content-Type", "application/json"), ("Authorization", "Bearer t1")] } := by
  refine ⟨?_, ?_, by decide, by decide⟩
  · intro t ht hne
    simp [apiRequestHeaders, ht, hne]
  · intro h
    simp [apiRequestHeaders, h]

/-- Witness for `auth_header_iff_token` with and without a stored token. -/
theorem auth_header_iff_token_witness :
    apiRequestHeaders ⟨some "t9", none⟩ =
      [("Content-Type", "application/json"), ("Authorization", "Bearer t9")]
    ∧ apiRequestHeaders ⟨none, none⟩ = [("Content-Type", "application/json")] :=
  ⟨(auth_header_iff_token ⟨some "t9", none⟩).1 "t9" rfl (by decide),
   (auth_header_iff_token ⟨none, none⟩).2.1 rfl⟩

/-- Helper: before the initial load, any non-load event leaves the store
uninitialized and writes nothing to storage. -/
theorem stepAuth_not_initialized (s : AuthState) (st : Storage) (ev : AuthEvent)
    (hs : s.isInitialized = false) (hev : ev ≠ AuthEvent.initialLoad) :
    (stepAuth (s, st) ev).1.isInitialized = false ∧ (stepAuth (s, st) ev).2 = st := by
  cases ev with
  | initialLoad => exact absurd rfl hev
  | loginOk r => exact ⟨by simp [stepAuth, setSession, hs], by simp [stepAuth, syncEffect, setSession, hs]⟩
  | signupOk r => exact ⟨by simp [stepAuth, setSession, hs], by simp [stepAuth, syncEffect, setSession, hs]⟩
  | logoutEv => exact ⟨by simp [stepAuth, hs], by simp [stepAuth, syncEffect, hs]⟩

/-- Helper: a run with no initial-load event never touches storage. -/
theorem runAuth_no_load (evs : List AuthEvent) :
    ∀ (s : AuthState) (st : Storage), s.isInitialized = false →
      AuthEvent.initialLoad ∉ evs →
      (evs.foldl stepAuth (s, st)).1.isInitialized = false
      ∧ (evs.foldl stepAuth (s, st)).2 = st := by
  induction evs with
  | nil => exact fun s st hs _ => ⟨hs, rfl⟩
  | cons e rest ih =>
      intro s st hs hmem
      have hne : e ≠ AuthEvent.initialLoad := by
        intro h
        exact hmem (h ▸ List.mem_cons_self e rest)
      have hrest : AuthEvent.initialLoad ∉ rest := fun h => hmem (List.mem_cons_of_mem _ h)
      obtain ⟨h1, h2⟩ := stepAuth_not_initialized s st e hs hne
      have hih := ih (stepAuth (s, st) e).1 (stepAuth (s, st) e).2 h1 hrest
      rw [List.foldl_cons]
      exact ⟨hih.1, hih.2.trans h2⟩

/-- C9: Starting from the transient default of no session, no storage key
is written or removed before the initial load completes; once initialized,
the sync effect persists the token and serialized user when a token is
present and removes both keys when it is not. -/
theorem sync_begins_after_initial_load (st0 st : Storage) (evs : List AuthEvent) (s : AuthState) :
    (AuthEvent.initialLoad ∉ evs → (runAuth st0 evs).2 = st0)
    ∧ (s.isInitialized = true → s.token = none →
        syncEffect s st = { jwtToken := none, userRaw := none })
    ∧ (∀ t fs, s.isInitialized = true → s.token = some t → t ≠ "" → s.user = some fs →
        syncEffect s st = { jwtToken := some t, userRaw := some (.jsonOf fs) })
    ∧ (∀ t, s.isInitialized = true → s.token = some t → t ≠ "" → s.user = none →
        syncEffect s st = { st with jwtToken := some t }) := by
  refine ⟨?_, ?_, ?_, ?_⟩
  · intro h
    exact (runAuth_no_load evs authDefault st0 rfl h).2
  · intro hi ht
    obtain ⟨stk, sur⟩ := st
    simp [syncEffect, hi, ht]
  · intro t fs hi ht hne hu
    obtain ⟨stk, sur⟩ := st
    simp [syncEffect, hi, ht, hne, hu]
  · intro t hi ht hne hu
    simp [syncEffect, hi, ht, hne, hu]

/-- Witness for `sync_begins_after_initial_load`: a login/logout run with
no initial load leaves storage intact, and the three sync shapes at
concrete states. -/
theorem sync_begins_after_initial_load_witness :
    (runAuth ⟨some "old", some (.jsonOf [("id", "u0")])⟩
        [AuthEvent.loginOk ⟨"t1", ⟨"u1", "a@x.com"⟩⟩, AuthEvent.logoutEv]).2 =
      ⟨some "old", some (.jsonOf [("id", "u0")])⟩
    ∧ syncEffect ⟨none, none, true⟩ ⟨some "old", some .invalid⟩ = ⟨none, none⟩
    ∧ syncEffect ⟨some "t1", some [("id", "u1")], true⟩ ⟨none, none⟩ =
      ⟨some "t1", some (.jsonOf [("id", "u1")])⟩
    ∧ syncEffect ⟨some "t1", none, true⟩ ⟨none, some .invalid⟩ = ⟨some "t1", some .invalid⟩ :=
  ⟨(sync_begins_after_initial_load ⟨some "old", some (.jsonOf [("id", "u0")])⟩
      ⟨none, none⟩ [AuthEvent.loginOk ⟨"t1", ⟨"u1", "a@x.com"⟩⟩, AuthEvent.logoutEv]
      authDefault).1 (by decide),
   (sync_begins_after_initial_load ⟨none, none⟩ ⟨some "old", some .invalid⟩ []
      ⟨none, none, true⟩).2.1 rfl rfl,
   (sync_begins_after_initial_load ⟨none, none⟩ ⟨none, none⟩ []
      ⟨some "t1", some [("id", "u1")], true⟩).2.2.1 "t1" [("id", "u1")] rfl rfl (by decide) rfl,
   (sync_begins_after_initial_load ⟨none, none⟩ ⟨none, some .invalid⟩ []
      ⟨some "t1", none, true⟩).2.2.2 "t1" rfl rfl (by decide) rfl⟩

/-- C10: Each chat client operation fails with "User not authenticated"
and builds no request whenever the `user` storage key is absent, fails to
parse, or parses to an object with no id field. -/
theorem chat_requires_user (st : Storage) (msg : String) (cid : Option Nat) (n : Nat)
    (h : st.userRaw = none ∨ st.userRaw = some .invalid ∨
      ∃ fs, st.userRaw = some (.jsonOf fs) ∧ fs.lookup "id" = none) :
    chatApi.sendMessage st msg cid = .error "User not authenticated"
    ∧ chatApi.getConversations st = .error "User not authenticated"
    ∧ chatApi.getConversationMessages st n = .error "User not authenticated" := by
  have hu : chatApi.getUserId st = none := by
    rcases h with h | h | ⟨fs, h, hl⟩
    · simp [chatApi.getUserId, h]
    · simp [chatApi.getUserId, h]
    · simp [chatApi.getUserId, h, hl]
  exact ⟨by simp [chatApi.sendMessage, hu], by simp [chatApi.getConversations, hu],
    by simp [chatApi.getConversationMessages, hu]⟩

/-- Witness for `chat_requires_user` at a storage with no user key. -/
theorem chat_requires_user_witness :
    chatApi.sendMessage ⟨some "t", none⟩ "hi" none = .error "User not authenticated"
    ∧ chatApi.getConversations ⟨some "t", none⟩ = .error "User not authenticated"
    ∧ chatApi.getConversationMessages ⟨some "t", none⟩ 3 = .error "User not authenticated" :=
  chat_requires_user ⟨some "t", none⟩ "hi" none 3 (Or.inl rfl)

end Todo
